import Mathlib

/-!
Shallow embedding of `magnum_cluster_api/driver.py` (class `BaseDriver`).

Each driver method is modelled as a pure function.  External side effects
(server-side applies, deletes, Keystone credential calls, Magnum record
saves, machine updates) are recorded in order as a list of events `Ev`.
Reads of the management cluster (CAPI cluster conditions, KubeadmControlPlane
status, MachineDeployment status, the machine list returned by the selector
query in `resize_cluster`, the Keystone credential lookup) are supplied by a
`World` record.  Mutable Magnum records (`cluster`, `nodegroup`, machines)
are threaded as values and returned updated.
-/

namespace MagnumClusterApi

/-- Python's `s.split(sep)` for a single-character separator, on the
character list of a string.  Structural recursion so that the kernel can
evaluate it (both uses in `driver.py` split on a one-character separator). -/
def splitChar (sep : Char) : List Char → List (List Char)
  | [] => [[]]
  | c :: rest =>
    let r := splitChar sep rest
    if c = sep then [] :: r
    else (c :: r.headD []) :: r.tailD []

/-- Python `s.split(sep)[0]` for a one-character separator. -/
def pySplitHead (sep : Char) (s : String) : String :=
  String.mk ((splitChar sep s.data).headD [])

/-- Python `s.split(sep)[-1]` for a one-character separator. -/
def pySplitLast (sep : Char) (s : String) : String :=
  String.mk ((splitChar sep s.data).getLastD [])

/-- One external side effect performed by the driver: a server-side apply or
delete of a typed resource, a Keystone credential call, a Magnum record save,
or a machine update.  Constructors carry the node-group name (or the updated
machine's providerID) when the resource is per-node-group (per-machine). -/
inductive Ev : Type where
  | applyNamespace : Ev
  | applyCCMConfigMap : Ev
  | applyCCMClusterResourceSet : Ev
  | applyCalicoConfigMap : Ev
  | applyCalicoClusterResourceSet : Ev
  | applyCinderCSIConfigMap : Ev
  | applyCinderCSIClusterResourceSet : Ev
  | issueCredential (user : String) (name : String) : Ev
  | applyCloudConfigSecret : Ev
  | applyApiCASecret : Ev
  | applyEtcdCASecret : Ev
  | applyFrontProxyCASecret : Ev
  | applyServiceAccountCASecret : Ev
  | applyOpenStackMachineTemplate (ng : String) : Ev
  | applyKubeadmControlPlane (ng : String) : Ev
  | applyKubeadmConfigTemplate : Ev
  | applyMachineDeployment (ng : String) : Ev
  | applyOpenStackCluster : Ev
  | applyCluster : Ev
  | applyMachineHealthCheck : Ev
  | deleteMachineHealthCheck : Ev
  | saveCluster : Ev
  | saveNodeGroup (ng : String) : Ev
  | revokeCredential : Ev
  | deleteCloudConfigSecret : Ev
  | deleteApiCASecret : Ev
  | deleteEtcdCASecret : Ev
  | deleteFrontProxyCASecret : Ev
  | deleteServiceAccountCASecret : Ev
  | deleteMachineDeployment (ng : String) : Ev
  | deleteKubeadmConfigTemplate : Ev
  | deleteKubeadmControlPlane (ng : String) : Ev
  | deleteOpenStackMachineTemplate (ng : String) : Ev
  | deleteCluster : Ev
  | updateMachine (providerID : String) : Ev
deriving DecidableEq, Repr

/-- A Magnum node-group record: the fields `driver.py` reads or writes. -/
structure NodeGroup : Type where
  name : String
  role : String
  status : String
  status_reason : Option String
  node_count : Nat
deriving DecidableEq, Repr

/-- A Magnum cluster record: the fields `driver.py` reads or writes.
`auto_healing_enabled` models `utils.get_cluster_label_as_bool(cluster,
"auto_healing_enabled", True)`; `default_ng_worker` is the record Magnum
supplies as the default worker node group. -/
structure Cluster : Type where
  uuid : String
  user_id : String
  status : String
  api_address : Option String
  coe_version : Option String
  nodegroups : List NodeGroup
  auto_healing_enabled : Bool
  default_ng_worker : NodeGroup
deriving DecidableEq, Repr

/-- A CAPI machine object, as read and written by `resize_cluster`:
its `spec.providerID` and its `metadata.annotations` dict (association
list in insertion order, later assignment overwrites in place). -/
structure Machine : Type where
  providerID : String
  annotations : List (String × String)
deriving DecidableEq, Repr

/-- Outcome of the Keystone `application_credentials.find(...).delete()`
call during cluster-deletion cleanup: the credential was found (and then
deleted), the find raised `NotFound`, or some other exception was raised. -/
inductive CredLookup : Type where
  | found : CredLookup
  | notFound : CredLookup
  | otherError : CredLookup
deriving DecidableEq, Repr

/-- The observable state of the external systems at the time of one driver
call: what each read performed by `driver.py` returns.  Per-node-group
reads are keyed by the node-group name. -/
structure World : Type where
  capiConditions : List (String × String)
  capiEndpointHost : String
  capiEndpointPort : Nat
  capiClusterExists : Bool
  kcpReady : String → Option Bool
  kcpFailureMessage : String → Option String
  kcpVersion : String → String
  mdPhase : String → String
  credLookup : CredLookup
  machines : List Machine

/-- Python dict built by `{c["type"]: c["status"] for c in conditions}` then
looked up with `.get(key)`: on duplicate keys the later entry wins. -/
def statusMapGet (conds : List (String × String)) (key : String) : Option String :=
  (conds.reverse.find? (fun c => c.1 = key)).map (fun c => c.2)

/-- `BaseDriver._apply_cluster`: apply the MachineHealthCheck when the
`auto_healing_enabled` label (default true) is set, delete it otherwise. -/
def apply_cluster (cluster : Cluster) : List Ev :=
  if cluster.auto_healing_enabled then [Ev.applyMachineHealthCheck]
  else [Ev.deleteMachineHealthCheck]

/-- `BaseDriver.create_nodegroup`: apply the OpenStackMachineTemplate, then
for a master node group the KubeadmControlPlane, else the
KubeadmConfigTemplate followed by the MachineDeployment. -/
def create_nodegroup (nodegroup : NodeGroup) : List Ev :=
  Ev.applyOpenStackMachineTemplate nodegroup.name ::
    (if nodegroup.role = "master" then
      [Ev.applyKubeadmControlPlane nodegroup.name]
    else
      [Ev.applyKubeadmConfigTemplate, Ev.applyMachineDeployment nodegroup.name])

/-- The fixed sequence of applies `create_cluster` performs before the
node-group loop: namespace, the three config-map/cluster-resource-set pairs,
the Keystone credential, the cloud-config secret, and the four
certificate-authority secrets. -/
def create_cluster_prologue (cluster : Cluster) : List Ev :=
  [Ev.applyNamespace,
   Ev.applyCCMConfigMap, Ev.applyCCMClusterResourceSet,
   Ev.applyCalicoConfigMap, Ev.applyCalicoClusterResourceSet,
   Ev.applyCinderCSIConfigMap, Ev.applyCinderCSIClusterResourceSet,
   Ev.issueCredential cluster.user_id cluster.uuid,
   Ev.applyCloudConfigSecret,
   Ev.applyApiCASecret, Ev.applyEtcdCASecret,
   Ev.applyFrontProxyCASecret, Ev.applyServiceAccountCASecret]

/-- `BaseDriver.create_cluster`: the prologue, then `create_nodegroup` for
each node group in order, then the OpenStackCluster and Cluster objects,
then `_apply_cluster`.  The Magnum cluster record is returned unchanged:
`create_cluster` assigns none of its fields. -/
def create_cluster (cluster : Cluster) : Cluster × List Ev :=
  (cluster,
   create_cluster_prologue cluster ++
     cluster.nodegroups.flatMap create_nodegroup ++
     [Ev.applyOpenStackCluster, Ev.applyCluster] ++
     apply_cluster cluster)

/-- `BaseDriver.update_nodegroup_status`: refresh one node group from the
world and save it; returns the updated record and the emitted events. -/
def update_nodegroup_status (w : World) (nodegroup : NodeGroup) :
    NodeGroup × List Ev :=
  let action := pySplitHead '_' nodegroup.status
  if nodegroup.role = "master" then
    let ready := (w.kcpReady nodegroup.name).getD false
    let failure_message := w.kcpFailureMessage nodegroup.name
    let ng1 := if ready then { nodegroup with status := action ++ "_COMPLETE" }
               else nodegroup
    let ng2 := { ng1 with status_reason := failure_message }
    (ng2, [Ev.saveNodeGroup ng2.name])
  else
    let phase := w.mdPhase nodegroup.name
    let ng1 :=
      if phase = "ScalingUp" ∨ phase = "ScalingDown" then
        { nodegroup with status := action ++ "_IN_PROGRESS" }
      else if phase = "Running" then
        { nodegroup with status := action ++ "_COMPLETE" }
      else if phase = "Failed" ∨ phase = "Unknown" then
        { nodegroup with status := action ++ "_FAILED" }
      else nodegroup
    (ng1, [Ev.saveNodeGroup ng1.name])

/-- Result of the node-group loop inside `update_cluster_status`:
the cluster threaded through it (its `coe_version` may be updated), the
node-group list after the refreshes performed so far, the emitted events,
and whether the loop ran to completion (`ok = false` means the `return` on
a node group whose status is not CREATE/UPDATE_COMPLETE fired). -/
structure LoopRes : Type where
  cluster : Cluster
  ngs : List NodeGroup
  events : List Ev
  ok : Bool
deriving Repr

/-- The `for node_group in cluster.nodegroups` loop of
`update_cluster_status` (lines 106-120 of `driver.py`). -/
def update_ngs_loop (w : World) : Cluster → List NodeGroup → LoopRes
  | c, [] => ⟨c, [], [], true⟩
  | c, ng :: rest =>
    let r := update_nodegroup_status w ng
    let ng2 := r.1
    if ng2.status = "CREATE_COMPLETE" ∨ ng2.status = "UPDATE_COMPLETE" then
      let c2 :=
        if ng2.role = "master" then
          { c with coe_version := some (w.kcpVersion ng2.name) }
        else c
      let r2 := update_ngs_loop w c2 rest
      ⟨r2.cluster, ng2 :: r2.ngs, r.2 ++ r2.events, r2.ok⟩
    else
      ⟨c, ng2 :: rest, r.2, false⟩

/-- Result of `update_cluster_status`: the cluster record as left by the
call, the emitted events, and whether a Keystone exception other than
`NotFound` propagated out of the call. -/
structure UCSRes : Type where
  cluster : Cluster
  events : List Ev
  error : Bool
deriving Repr

/-- The `if cluster.status == "DELETE_IN_PROGRESS"` block of
`update_cluster_status` (lines 130-155 of `driver.py`), reached either
directly or by falling through the first block.  `evs` are the events
already emitted before this block. -/
def delete_in_progress_branch (w : World) (cluster : Cluster) (evs : List Ev) :
    UCSRes :=
  if cluster.status = "DELETE_IN_PROGRESS" then
    if w.capiClusterExists then ⟨cluster, evs, false⟩
    else
      match w.credLookup with
      | CredLookup.otherError => ⟨cluster, evs, true⟩
      | l =>
        ⟨{ cluster with status := "DELETE_COMPLETE" },
         evs ++ (if l = CredLookup.found then [Ev.revokeCredential] else []) ++
           [Ev.deleteCloudConfigSecret,
            Ev.deleteApiCASecret, Ev.deleteEtcdCASecret,
            Ev.deleteFrontProxyCASecret, Ev.deleteServiceAccountCASecret,
            Ev.saveCluster],
         false⟩
  else ⟨cluster, evs, false⟩

/-- Lines 122-126 of `driver.py`: the two consecutive `if` statements that
advance CREATE_IN_PROGRESS to CREATE_COMPLETE and UPDATE_IN_PROGRESS to
UPDATE_COMPLETE. -/
def advance_in_progress (c2 : Cluster) : Cluster :=
  let c3 := if c2.status = "CREATE_IN_PROGRESS" then
              { c2 with status := "CREATE_COMPLETE" } else c2
  if c3.status = "UPDATE_IN_PROGRESS" then
    { c3 with status := "UPDATE_COMPLETE" } else c3

/-- The remainder of `update_cluster_status` once ControlPlaneReady is
"True" and the api_address has been recomposed (lines 106-128 of
`driver.py`, then falling through to the DELETE_IN_PROGRESS block):
refresh every node group, returning early if one is not
CREATE/UPDATE_COMPLETE, otherwise advance the status and save. -/
def ready_path (w : World) (c1 : Cluster) : UCSRes :=
  let lr := update_ngs_loop w c1 c1.nodegroups
  let c2 := { lr.cluster with nodegroups := lr.ngs }
  if lr.ok then
    delete_in_progress_branch w (advance_in_progress c2)
      (lr.events ++ [Ev.saveCluster])
  else ⟨c2, lr.events, false⟩

/-- `BaseDriver.update_cluster_status`.  The two Python `return` statements
inside the CREATE/UPDATE_IN_PROGRESS block exit the whole method, so on
those paths the DELETE_IN_PROGRESS block is never reached. -/
def update_cluster_status (w : World) (cluster : Cluster) : UCSRes :=
  if cluster.status = "CREATE_IN_PROGRESS" ∨ cluster.status = "UPDATE_IN_PROGRESS" then
    if statusMapGet w.capiConditions "ControlPlaneReady" ≠ some "True" then
      ⟨cluster, [], false⟩
    else
      ready_path w { cluster with
        api_address := some ("https://" ++ w.capiEndpointHost ++ ":" ++
          toString w.capiEndpointPort) }
  else delete_in_progress_branch w cluster []

/-- Python dict assignment `d[k] = v`: overwrite the entry in place when the
key is present, append otherwise. -/
def dictSet (l : List (String × String)) (k v : String) : List (String × String) :=
  if l.any (fun p => p.1 = k) then
    l.map (fun p => if p.1 = k then (k, v) else p)
  else l ++ [(k, v)]

/-- The machine mutation `resize_cluster` performs on a machine named for
removal: set the `cluster.x-self.k8s_api.io/delete-machine` annotation. -/
def annotateForDeletion (m : Machine) : Machine :=
  { m with annotations :=
      dictSet m.annotations "cluster.x-self.k8s_api.io/delete-machine" "yes" }

/-- Does `resize_cluster` select this machine for removal: the last
`"/"`-separated segment of its providerID is listed in `nodes_to_remove`. -/
def namedForRemoval (nodes_to_remove : List String) (m : Machine) : Prop :=
  pySplitLast '/' m.providerID ∈ nodes_to_remove

instance (nodes_to_remove : List String) (m : Machine) :
    Decidable (namedForRemoval nodes_to_remove m) := by
  unfold namedForRemoval; infer_instance

/-- `BaseDriver.update_nodegroup`: apply the MachineDeployment, nothing else. -/
def update_nodegroup (nodegroup : NodeGroup) : List Ev :=
  [Ev.applyMachineDeployment nodegroup.name]

/-- Result of `resize_cluster`: the node group as updated, the machine list
(from the selector query) as left by the call, and the emitted events. -/
structure ResizeRes : Type where
  nodegroup : NodeGroup
  machines : List Machine
  events : List Ev
deriving Repr

/-- `BaseDriver.resize_cluster`: when `nodes_to_remove` is non-empty,
annotate (and update) every machine of the selector query whose providerID's
last segment is named for removal; in every case set the node group's
`node_count` and re-apply its machine-deployment via `update_nodegroup`.
A `nodegroup` argument of `none` defaults to `cluster.default_ng_worker`. -/
def resize_cluster (w : World) (cluster : Cluster) (node_count : Nat)
    (nodes_to_remove : List String) (nodegroup : Option NodeGroup) : ResizeRes :=
  let ng := nodegroup.getD cluster.default_ng_worker
  let machines :=
    if nodes_to_remove.isEmpty then w.machines
    else w.machines.map (fun m =>
      if namedForRemoval nodes_to_remove m then annotateForDeletion m else m)
  let machineEvs :=
    if nodes_to_remove.isEmpty then []
    else w.machines.filterMap (fun m =>
      if namedForRemoval nodes_to_remove m then
        some (Ev.updateMachine (annotateForDeletion m).providerID)
      else none)
  let ng2 := { ng with node_count := node_count }
  ⟨ng2, machines, machineEvs ++ update_nodegroup ng2⟩

/-- `BaseDriver.delete_nodegroup`: for non-master node groups delete the
MachineDeployment and the KubeadmConfigTemplate; in every case delete the
OpenStackMachineTemplate. -/
def delete_nodegroup (nodegroup : NodeGroup) : List Ev :=
  (if nodegroup.role ≠ "master" then
    [Ev.deleteMachineDeployment nodegroup.name, Ev.deleteKubeadmConfigTemplate]
  else []) ++
  [Ev.deleteOpenStackMachineTemplate nodegroup.name]

/-- `BaseDriver.delete_cluster`: delete the top-level Cluster object only. -/
def delete_cluster : List Ev :=
  [Ev.deleteCluster]

/-! ### Event classifiers used by the ordering and counting claims -/

/-- The event is the Keystone credential issuance. -/
def isIssueCredential : Ev → Bool
  | Ev.issueCredential _ _ => true
  | _ => false

/-- The event applies one of the four certificate-authority secrets. -/
def isCASecretApply : Ev → Bool
  | Ev.applyApiCASecret => true
  | Ev.applyEtcdCASecret => true
  | Ev.applyFrontProxyCASecret => true
  | Ev.applyServiceAccountCASecret => true
  | _ => false

/-- The event applies the cloud-config secret. -/
def isCloudConfigSecretApply : Ev → Bool
  | Ev.applyCloudConfigSecret => true
  | _ => false

/-- The event applies an OpenStackMachineTemplate. -/
def isMachineTemplateApply : Ev → Bool
  | Ev.applyOpenStackMachineTemplate _ => true
  | _ => false

/-- The event applies a KubeadmControlPlane. -/
def isControlPlaneApply : Ev → Bool
  | Ev.applyKubeadmControlPlane _ => true
  | _ => false

/-- The event applies a MachineDeployment. -/
def isMachineDeploymentApply : Ev → Bool
  | Ev.applyMachineDeployment _ => true
  | _ => false

/-- The event is the credential issuance or the cloud-config secret apply. -/
def isCredentialOrCloudConfig : Ev → Bool
  | Ev.issueCredential _ _ => true
  | Ev.applyCloudConfigSecret => true
  | _ => false

/-- The event applies a per-node-group resource: a machine template, a
control-plane object, a bootstrap-config template or a machine-deployment. -/
def isNodeGroupResourceApply : Ev → Bool
  | Ev.applyOpenStackMachineTemplate _ => true
  | Ev.applyKubeadmControlPlane _ => true
  | Ev.applyKubeadmConfigTemplate => true
  | Ev.applyMachineDeployment _ => true
  | _ => false

/-! ### Concrete records used to instantiate theorems with hypotheses -/

/-- A master node group. -/
def ngMaster : NodeGroup :=
  ⟨"default-master", "master", "CREATE_IN_PROGRESS", none, 1⟩

/-- A worker node group. -/
def ngWorkerA : NodeGroup :=
  ⟨"default-worker", "worker", "CREATE_IN_PROGRESS", none, 2⟩

/-- A second worker node group. -/
def ngWorkerB : NodeGroup :=
  ⟨"extra-worker", "worker", "UPDATE_IN_PROGRESS", none, 1⟩

/-- A cluster with one master and two worker node groups. -/
def clusterA : Cluster :=
  ⟨"uuid-1", "user-1", "CREATE_IN_PROGRESS", none, none,
   [ngMaster, ngWorkerA, ngWorkerB], true, ngWorkerA⟩

/-- A world whose CAPI cluster reports ControlPlaneReady="False". -/
def worldNotReady : World :=
  ⟨[("InfrastructureReady", "True"), ("ControlPlaneReady", "False")],
   "10.0.0.1", 6443, true,
   fun _ => none, fun _ => none, fun _ => "v1.25.3", fun _ => "Running",
   CredLookup.notFound, []⟩

/-- A world whose CAPI cluster object is gone and whose credential lookup
raises NotFound, with everything else healthy. -/
def worldDeleted : World :=
  ⟨[("ControlPlaneReady", "True")], "10.0.0.1", 6443, false,
   fun _ => some true, fun _ => none, fun _ => "v1.25.3", fun _ => "Running",
   CredLookup.notFound,
   [⟨"openstack:///region/abc123", []⟩, ⟨"openstack:///region/def456", []⟩]⟩

/-! ### Claims -/

/-- Claim C10: for every node group regardless of its role — including the
master node group — `update_nodegroup` applies exactly one resource, the
machine-deployment object, and nothing else; in particular it does not
touch the control-plane object. -/
theorem update_nodegroup_only_machine_deployment (nodegroup : NodeGroup) :
    update_nodegroup nodegroup = [Ev.applyMachineDeployment nodegroup.name] :=
  rfl

/-- Claim C9: for a master node group `delete_nodegroup` deletes only its
machine template; it never deletes a control-plane object, and the
machine-deployment and bootstrap-config-template deletions happen only for
non-master node groups. -/
theorem delete_nodegroup_master_frame (nodegroup : NodeGroup) :
    (nodegroup.role = "master" →
      delete_nodegroup nodegroup =
        [Ev.deleteOpenStackMachineTemplate nodegroup.name]) ∧
    (∀ n, Ev.deleteKubeadmControlPlane n ∉ delete_nodegroup nodegroup) ∧
    (∀ n, Ev.deleteMachineDeployment n ∈ delete_nodegroup nodegroup →
      nodegroup.role ≠ "master") ∧
    (Ev.deleteKubeadmConfigTemplate ∈ delete_nodegroup nodegroup →
      nodegroup.role ≠ "master") := by
  by_cases h : nodegroup.role = "master" <;>
    simp [delete_nodegroup, h]

/-- Witness for C9 at the concrete master node group. -/
theorem delete_nodegroup_master_frame_witness :
    delete_nodegroup ngMaster =
      [Ev.deleteOpenStackMachineTemplate "default-master"] :=
  (delete_nodegroup_master_frame ngMaster).1 rfl

/-- Claim C3: while the cluster is CREATE/UPDATE_IN_PROGRESS, if the
top-level cluster object's ControlPlaneReady condition is anything but the
literal "True" (including absent), `update_cluster_status` returns with the
cluster record — in particular its status and api_address — unchanged, and
without saving it. -/
theorem update_cluster_status_not_ready_frame (w : World) (c : Cluster)
    (hst : c.status = "CREATE_IN_PROGRESS" ∨ c.status = "UPDATE_IN_PROGRESS")
    (hcp : statusMapGet w.capiConditions "ControlPlaneReady" ≠ some "True") :
    (update_cluster_status w c).cluster.status = c.status ∧
    (update_cluster_status w c).cluster.api_address = c.api_address ∧
    Ev.saveCluster ∉ (update_cluster_status w c).events ∧
    (update_cluster_status w c).cluster = c := by
  unfold update_cluster_status
  rw [if_pos hst, if_pos hcp]
  simp

/-- Witness for C3: a CREATE_IN_PROGRESS cluster against a world reporting
ControlPlaneReady="False". -/
theorem update_cluster_status_not_ready_frame_witness :
    (update_cluster_status worldNotReady clusterA).cluster = clusterA ∧
    Ev.saveCluster ∉ (update_cluster_status worldNotReady clusterA).events := by
  have h := update_cluster_status_not_ready_frame worldNotReady clusterA
    (Or.inl (by decide)) (by decide)
  exact ⟨h.2.2.2, h.2.2.1⟩

/-- The first chunk of a separator-split of `l1 ++ sep :: l2` is `l1`
when `l1` itself is separator-free. -/
theorem splitChar_head_append (sep : Char) (l1 l2 : List Char)
    (h : sep ∉ l1) : (splitChar sep (l1 ++ sep :: l2)).headD [] = l1 := by
  induction l1 with
  | nil => simp [splitChar]
  | cons c rest ih =>
    have hc : ¬c = sep := fun e => h (e ▸ List.mem_cons_self c rest)
    have hrest : sep ∉ rest := fun hm => h (List.mem_cons_of_mem c hm)
    simp only [List.cons_append, splitChar, if_neg hc, List.headD_cons,
      List.append_eq]
    rw [ih hrest]

/-- On a status of the form `VERB ++ "_" ++ SUFFIX` with an
underscore-free verb, `status.split("_")[0]` recovers the verb. -/
theorem pySplitHead_verb (verb suffix : String) (h : '_' ∉ verb.data) :
    pySplitHead '_' (verb ++ "_" ++ suffix) = verb := by
  unfold pySplitHead
  have hdata : (verb ++ "_" ++ suffix).data = verb.data ++ '_' :: suffix.data := by
    simp [String.data_append]
  rw [hdata, splitChar_head_append _ _ _ h]

/-- Claim C4: for every non-master node group whose status is of the
form VERB_SUFFIX (underscore-free verb), `update_nodegroup_status` keeps the verb prefix
and maps the machine-deployment phase: ScalingUp/ScalingDown give
VERB_IN_PROGRESS, Running gives VERB_COMPLETE, Failed/Unknown give
VERB_FAILED, and any other phase leaves the status unchanged. -/
theorem update_nodegroup_status_worker_phase_map (w : World) (ng : NodeGroup)
    (verb suffix : String)
    (hrole : ng.role ≠ "master")
    (hverb : '_' ∉ verb.data)
    (hst : ng.status = verb ++ "_" ++ suffix) :
    ((w.mdPhase ng.name = "ScalingUp" ∨ w.mdPhase ng.name = "ScalingDown") →
      (update_nodegroup_status w ng).1.status = verb ++ "_IN_PROGRESS") ∧
    (w.mdPhase ng.name = "Running" →
      (update_nodegroup_status w ng).1.status = verb ++ "_COMPLETE") ∧
    ((w.mdPhase ng.name = "Failed" ∨ w.mdPhase ng.name = "Unknown") →
      (update_nodegroup_status w ng).1.status = verb ++ "_FAILED") ∧
    (w.mdPhase ng.name ∉
        ["ScalingUp", "ScalingDown", "Running", "Failed", "Unknown"] →
      (update_nodegroup_status w ng).1.status = ng.status) := by
  have haction : pySplitHead '_' ng.status = verb := by
    rw [hst]; exact pySplitHead_verb verb suffix hverb
  refine ⟨?_, ?_, ?_, ?_⟩ <;> intro hph
  · rcases hph with h | h <;> simp [update_nodegroup_status, hrole, haction, h]
  · simp [update_nodegroup_status, hrole, haction, hph]
  · rcases hph with h | h <;> simp [update_nodegroup_status, hrole, haction, h]
  · simp only [List.mem_cons, List.not_mem_nil, or_false, not_or] at hph
    obtain ⟨h1, h2, h3, h4, h5⟩ := hph
    simp [update_nodegroup_status, hrole, haction, h1, h2, h3, h4, h5]

/-- Witness for C4: a worker in UPDATE_IN_PROGRESS whose machine-deployment
phase is Running moves to UPDATE_COMPLETE (spec Scenario C). -/
theorem update_nodegroup_status_worker_phase_map_witness :
    (update_nodegroup_status worldDeleted ngWorkerB).1.status =
      "UPDATE_COMPLETE" := by
  have h := update_nodegroup_status_worker_phase_map worldDeleted ngWorkerB
    "UPDATE" "IN_PROGRESS" (by decide) (by decide) (by decide)
  exact h.2.1 (by decide)

/-- Claim C5: for every master node group with a status of the form
VERB_SUFFIX (underscore-free verb),
`update_nodegroup_status` sets the suffix to COMPLETE (keeping the verb)
exactly when the control-plane object's `ready` field (defaulting to false
when absent) is true, leaves the status unchanged otherwise, always
overwrites `status_reason` with the control-plane's failureMessage, and
always saves the node-group record. -/
theorem update_nodegroup_status_master (w : World) (ng : NodeGroup)
    (verb suffix : String)
    (hrole : ng.role = "master")
    (hverb : '_' ∉ verb.data)
    (hst : ng.status = verb ++ "_" ++ suffix) :
    (update_nodegroup_status w ng).1.status =
      (if (w.kcpReady ng.name).getD false then verb ++ "_COMPLETE"
       else ng.status) ∧
    (update_nodegroup_status w ng).1.status_reason =
      w.kcpFailureMessage ng.name ∧
    Ev.saveNodeGroup ng.name ∈ (update_nodegroup_status w ng).2 := by
  have haction : pySplitHead '_' ng.status = verb := by
    rw [hst]; exact pySplitHead_verb verb suffix hverb
  cases hready : (w.kcpReady ng.name).getD false <;>
    simp [update_nodegroup_status, hrole, haction, hready]

/-- Witness for C5: the master node group against a ready control plane
moves to CREATE_COMPLETE, takes the (absent) failure message, and is saved. -/
theorem update_nodegroup_status_master_witness :
    (update_nodegroup_status worldDeleted ngMaster).1.status =
      "CREATE_COMPLETE" ∧
    (update_nodegroup_status worldDeleted ngMaster).1.status_reason = none ∧
    Ev.saveNodeGroup "default-master" ∈
      (update_nodegroup_status worldDeleted ngMaster).2 := by
  have h := update_nodegroup_status_master worldDeleted ngMaster
    "CREATE" "IN_PROGRESS" rfl (by decide) (by decide)
  refine ⟨?_, h.2.1, h.2.2⟩
  rw [h.1]; decide

/-- Claim C6: for a DELETE_IN_PROGRESS cluster, `update_cluster_status`
suspends with no effect while the top-level cluster object still exists;
once it is absent it revokes the credential swallowing only a NotFound
error (any other Keystone error propagates with nothing deleted), deletes
the cloud-config secret and the four certificate-authority secrets, sets
the status to DELETE_COMPLETE and saves the record. -/
theorem update_cluster_status_delete_refresh (w : World) (c : Cluster)
    (hst : c.status = "DELETE_IN_PROGRESS") :
    (w.capiClusterExists = true →
      (update_cluster_status w c).cluster = c ∧
      (update_cluster_status w c).events = [] ∧
      (update_cluster_status w c).error = false) ∧
    (w.capiClusterExists = false → w.credLookup ≠ CredLookup.otherError →
      (update_cluster_status w c).cluster.status = "DELETE_COMPLETE" ∧
      (update_cluster_status w c).error = false ∧
      Ev.deleteCloudConfigSecret ∈ (update_cluster_status w c).events ∧
      Ev.deleteApiCASecret ∈ (update_cluster_status w c).events ∧
      Ev.deleteEtcdCASecret ∈ (update_cluster_status w c).events ∧
      Ev.deleteFrontProxyCASecret ∈ (update_cluster_status w c).events ∧
      Ev.deleteServiceAccountCASecret ∈ (update_cluster_status w c).events ∧
      Ev.saveCluster ∈ (update_cluster_status w c).events ∧
      (w.credLookup = CredLookup.notFound →
        Ev.revokeCredential ∉ (update_cluster_status w c).events) ∧
      (w.credLookup = CredLookup.found →
        Ev.revokeCredential ∈ (update_cluster_status w c).events)) ∧
    (w.capiClusterExists = false → w.credLookup = CredLookup.otherError →
      (update_cluster_status w c).cluster = c ∧
      (update_cluster_status w c).events = [] ∧
      (update_cluster_status w c).error = true) := by
  have hne : ¬(c.status = "CREATE_IN_PROGRESS" ∨ c.status = "UPDATE_IN_PROGRESS") := by
    rw [hst]; decide
  unfold update_cluster_status
  rw [if_neg hne]
  unfold delete_in_progress_branch
  rw [if_pos hst]
  cases hex : w.capiClusterExists <;> cases hcl : w.credLookup <;> simp

/-- Witness for C6 (spec Scenario F): top-level object confirmed absent,
credential lookup raising NotFound. -/
theorem update_cluster_status_delete_refresh_witness :
    (update_cluster_status worldDeleted
      { clusterA with status := "DELETE_IN_PROGRESS" }).cluster.status =
        "DELETE_COMPLETE" ∧
    Ev.revokeCredential ∉ (update_cluster_status worldDeleted
      { clusterA with status := "DELETE_IN_PROGRESS" }).events ∧
    Ev.deleteCloudConfigSecret ∈ (update_cluster_status worldDeleted
      { clusterA with status := "DELETE_IN_PROGRESS" }).events := by
  have h := update_cluster_status_delete_refresh worldDeleted
    { clusterA with status := "DELETE_IN_PROGRESS" } rfl
  have h2 := h.2.1 rfl (by decide)
  exact ⟨h2.1, h2.2.2.2.2.2.2.2.2.1 rfl, h2.2.2.1⟩

/-- Claim C1: `create_cluster` on a cluster with one master and two
non-master node groups issues exactly one credential, applies exactly four
certificate-authority secrets, one cloud-config secret, three machine
templates, one control-plane object and two machine-deployments, and
leaves the cluster's status untouched at CREATE_IN_PROGRESS. -/
theorem create_cluster_resource_counts (c : Cluster) (m w1 w2 : NodeGroup)
    (hngs : c.nodegroups = [m, w1, w2])
    (hm : m.role = "master")
    (h1 : w1.role ≠ "master") (h2 : w2.role ≠ "master")
    (hst : c.status = "CREATE_IN_PROGRESS") :
    (create_cluster c).2.countP isIssueCredential = 1 ∧
    (create_cluster c).2.countP isCASecretApply = 4 ∧
    (create_cluster c).2.countP isCloudConfigSecretApply = 1 ∧
    (create_cluster c).2.countP isMachineTemplateApply = 3 ∧
    (create_cluster c).2.countP isControlPlaneApply = 1 ∧
    (create_cluster c).2.countP isMachineDeploymentApply = 2 ∧
    (create_cluster c).1.status = "CREATE_IN_PROGRESS" := by
  cases hah : c.auto_healing_enabled <;>
    simp [create_cluster, create_cluster_prologue, create_nodegroup,
      apply_cluster, hngs, hm, h1, h2, hst, hah,
      isIssueCredential, isCASecretApply, isCloudConfigSecretApply,
      isMachineTemplateApply, isControlPlaneApply, isMachineDeploymentApply,
      List.countP_append, List.countP_cons]

/-- Witness for C1 at the concrete one-master-two-worker cluster. -/
theorem create_cluster_resource_counts_witness :
    (create_cluster clusterA).2.countP isIssueCredential = 1 ∧
    (create_cluster clusterA).2.countP isCASecretApply = 4 ∧
    (create_cluster clusterA).2.countP isMachineDeploymentApply = 2 ∧
    (create_cluster clusterA).1.status = "CREATE_IN_PROGRESS" := by
  have h := create_cluster_resource_counts clusterA ngMaster ngWorkerA ngWorkerB
    rfl rfl (by decide) (by decide) rfl
  exact ⟨h.1, h.2.1, h.2.2.2.2.2.1, h.2.2.2.2.2.2⟩

/-- Python dict lookup `d.get(k)` on the association-list model: first
occurrence of the key (keys are unique under `dictSet` discipline). -/
def dictGet (l : List (String × String)) (k : String) : Option String :=
  (l.find? (fun c => c.1 = k)).map (fun c => c.2)

/-- Looking up a key in the overwrite-in-place image of a dict finds the
written value exactly when the key was present. -/
theorem find?_key_map_overwrite (l : List (String × String)) (k v : String) :
    (l.map (fun p => if p.1 = k then (k, v) else p)).find?
        (fun c => c.1 = k) =
      if l.any (fun p => p.1 = k) then some (k, v) else none := by
  induction l with
  | nil => simp
  | cons p rest ih =>
    by_cases hp : p.1 = k
    · simp [hp, List.find?_cons]
    · simp only [List.map_cons, List.find?_cons, List.any_cons, if_neg hp,
        decide_eq_false hp, Bool.false_or, ih]

/-- After `d[k] = v`, `d.get(k)` returns `v`. -/
theorem dictGet_dictSet (l : List (String × String)) (k v : String) :
    dictGet (dictSet l k v) k = some v := by
  unfold dictGet dictSet
  by_cases h : l.any (fun p => p.1 = k)
  · rw [if_pos h, find?_key_map_overwrite, if_pos h]
    rfl
  · rw [if_neg h, List.find?_append]
    have hnone : l.find? (fun c => decide (c.1 = k)) = none := by
      rw [List.find?_eq_none]
      intro x hx
      simp only [List.any_eq_true, not_exists, not_and] at h
      simpa using h x hx
    rw [hnone]
    simp

/-- Claim C7: `resize_cluster` annotates for deletion (and writes back)
exactly those machines of the selector query whose providerID's last
`"/"`-separated segment is listed in `nodes_to_remove`, leaves every other
machine untouched, and — in all cases, including an empty
`nodes_to_remove` — sets the node group's `node_count` and re-applies its
machine-deployment. -/
theorem resize_cluster_machines (w : World) (c : Cluster) (node_count : Nat)
    (nodes_to_remove : List String) (og : Option NodeGroup) :
    (∀ (i : Nat) (m : Machine), w.machines[i]? = some m →
      (namedForRemoval nodes_to_remove m →
        (resize_cluster w c node_count nodes_to_remove og).machines[i]? =
          some (annotateForDeletion m) ∧
        dictGet (annotateForDeletion m).annotations
          "cluster.x-self.k8s_api.io/delete-machine" = some "yes" ∧
        Ev.updateMachine m.providerID ∈
          (resize_cluster w c node_count nodes_to_remove og).events) ∧
      (¬ namedForRemoval nodes_to_remove m →
        (resize_cluster w c node_count nodes_to_remove og).machines[i]? =
          some m)) ∧
    (∀ pid,
      Ev.updateMachine pid ∈
          (resize_cluster w c node_count nodes_to_remove og).events →
      ∃ m, m ∈ w.machines ∧ namedForRemoval nodes_to_remove m ∧
        pid = m.providerID) ∧
    (resize_cluster w c node_count nodes_to_remove og).nodegroup.node_count =
      node_count ∧
    (resize_cluster w c node_count nodes_to_remove og).nodegroup.name =
      (og.getD c.default_ng_worker).name ∧
    Ev.applyMachineDeployment (og.getD c.default_ng_worker).name ∈
      (resize_cluster w c node_count nodes_to_remove og).events := by
  by_cases hemp : nodes_to_remove.isEmpty
  · have hnil : nodes_to_remove = [] := List.isEmpty_iff.1 hemp
    subst hnil
    refine ⟨?_, ?_, ?_, ?_, ?_⟩
    · intro i m hm
      constructor
      · intro hnamed
        exact absurd hnamed (by simp [namedForRemoval])
      · intro _
        show (resize_cluster w c node_count [] og).machines[i]? = some m
        simp only [resize_cluster, List.isEmpty_nil, if_pos]
        exact hm
    · intro pid hmem
      simp [resize_cluster, update_nodegroup] at hmem
    · simp [resize_cluster]
    · simp [resize_cluster]
    · simp [resize_cluster, update_nodegroup]
  · have heq : nodes_to_remove.isEmpty = false := by
      simpa using hemp
    refine ⟨?_, ?_, ?_, ?_, ?_⟩
    · intro i m hm
      constructor
      · intro hnamed
        refine ⟨?_, dictGet_dictSet _ _ _, ?_⟩
        · simp [resize_cluster, heq, List.getElem?_map, hm, if_pos hnamed]
        · have hmem : m ∈ w.machines := List.getElem?_mem hm
          have : Ev.updateMachine m.providerID ∈
              w.machines.filterMap (fun m2 =>
                if namedForRemoval nodes_to_remove m2 then
                  some (Ev.updateMachine (annotateForDeletion m2).providerID)
                else none) :=
            List.mem_filterMap.2 ⟨m, hmem, by rw [if_pos hnamed]; rfl⟩
          simp only [resize_cluster, heq]
          exact List.mem_append_left _ this
      · intro hnamed
        simp [resize_cluster, heq, List.getElem?_map, hm, if_neg hnamed]
    · intro pid hmem
      simp only [resize_cluster, heq, update_nodegroup] at hmem
      rcases List.mem_append.1 hmem with hl | hr
      · rcases List.mem_filterMap.1 hl with ⟨m, hm, hfm⟩
        by_cases hnamed : namedForRemoval nodes_to_remove m
        · rw [if_pos hnamed] at hfm
          refine ⟨m, hm, hnamed, ?_⟩
          cases hfm
          rfl
        · rw [if_neg hnamed] at hfm
          exact absurd hfm (by simp)
      · simp at hr
    · simp [resize_cluster]
    · simp [resize_cluster]
    · simp [resize_cluster, update_nodegroup]

/-- Witness for C7 (spec Scenario D): removing `abc123` annotates the
machine whose providerID ends in `/abc123`, leaves the other machine
untouched, and updates the node group. -/
theorem resize_cluster_machines_witness :
    (resize_cluster worldDeleted clusterA 5 ["abc123"]
        (some ngWorkerA)).machines[0]? =
      some (annotateForDeletion ⟨"openstack:///region/abc123", []⟩) ∧
    (resize_cluster worldDeleted clusterA 5 ["abc123"]
        (some ngWorkerA)).machines[1]? =
      some ⟨"openstack:///region/def456", []⟩ ∧
    (resize_cluster worldDeleted clusterA 5 ["abc123"]
        (some ngWorkerA)).nodegroup.node_count = 5 ∧
    Ev.applyMachineDeployment "default-worker" ∈
      (resize_cluster worldDeleted clusterA 5 ["abc123"]
        (some ngWorkerA)).events := by
  have h := resize_cluster_machines worldDeleted clusterA 5 ["abc123"]
    (some ngWorkerA)
  refine ⟨((h.1 0 _ (by decide)).1 (by decide)).1, (h.1 1 _ (by decide)).2
    (by decide), h.2.2.1, h.2.2.2.2⟩

/-- Every event emitted by `create_nodegroup` is a per-node-group resource
apply. -/
theorem create_nodegroup_events_are_ng (ng : NodeGroup) (e : Ev)
    (he : e ∈ create_nodegroup ng) : isNodeGroupResourceApply e = true := by
  unfold create_nodegroup at he
  by_cases h : ng.role = "master" <;> simp [h] at he <;>
    rcases he with rfl | rfl | rfl <;> rfl

/-- A per-node-group resource apply is neither the credential issuance, the
cloud-config secret, a certificate-authority secret, nor the top-level
cluster apply. -/
theorem isNG_excludes (e : Ev) (h : isNodeGroupResourceApply e = true) :
    isCredentialOrCloudConfig e = false ∧ isCASecretApply e = false ∧
    e ≠ Ev.applyCluster := by
  cases e <;> simp_all [isNodeGroupResourceApply, isCredentialOrCloudConfig,
    isCASecretApply]

/-- No event of the `create_cluster` prologue is a per-node-group resource
apply or the top-level cluster apply. -/
theorem prologue_no_ng_no_cluster (c : Cluster) (e : Ev)
    (he : e ∈ create_cluster_prologue c) :
    isNodeGroupResourceApply e = false ∧ e ≠ Ev.applyCluster := by
  simp only [create_cluster_prologue, List.mem_cons, List.not_mem_nil,
    or_false] at he
  rcases he with rfl | rfl | rfl | rfl | rfl | rfl | rfl | rfl | rfl | rfl |
    rfl | rfl | rfl <;> simp [isNodeGroupResourceApply]

/-- No event after the node-group loop of `create_cluster` is the
credential issuance, the cloud-config secret apply, or a
certificate-authority secret apply. -/
theorem epilogue_no_cred_no_ca (c : Cluster) (e : Ev)
    (he : e ∈ [Ev.applyOpenStackCluster, Ev.applyCluster] ++ apply_cluster c) :
    isCredentialOrCloudConfig e = false ∧ isCASecretApply e = false := by
  unfold apply_cluster at he
  cases hah : c.auto_healing_enabled <;> rw [hah] at he <;> simp at he <;>
    rcases he with rfl | rfl | rfl <;>
    simp [isCredentialOrCloudConfig, isCASecretApply]

/-- Claim C2: in the event sequence of `create_cluster`, the credential
issuance and the cloud-config secret apply come strictly before every
per-node-group resource apply, and every certificate-authority secret apply
comes strictly before the top-level cluster apply. -/
theorem create_cluster_ordering (c : Cluster) (i j : Nat)
    (hi : i < (create_cluster c).2.length)
    (hj : j < (create_cluster c).2.length) :
    (isCredentialOrCloudConfig ((create_cluster c).2.get ⟨i, hi⟩) = true →
      isNodeGroupResourceApply ((create_cluster c).2.get ⟨j, hj⟩) = true →
      i < j) ∧
    (isCASecretApply ((create_cluster c).2.get ⟨i, hi⟩) = true →
      (create_cluster c).2.get ⟨j, hj⟩ = Ev.applyCluster → i < j) := by
  have ht : (create_cluster c).2 =
      create_cluster_prologue c ++
        (c.nodegroups.flatMap create_nodegroup ++
          ([Ev.applyOpenStackCluster, Ev.applyCluster] ++ apply_cluster c)) := by
    simp [create_cluster, List.append_assoc]
  have hlen : (create_cluster_prologue c).length = 13 := rfl
  have hdrop : (create_cluster c).2.drop 13 =
      c.nodegroups.flatMap create_nodegroup ++
        ([Ev.applyOpenStackCluster, Ev.applyCluster] ++ apply_cluster c) := by
    rw [ht, show (13 : Nat) = (create_cluster_prologue c).length from hlen.symm,
      List.drop_left]
  have htake : (create_cluster c).2.take 13 = create_cluster_prologue c := by
    rw [ht, show (13 : Nat) = (create_cluster_prologue c).length from hlen.symm,
      List.take_left]
  have hhigh : ∀ (k : Nat) (hk : k < (create_cluster c).2.length), 13 ≤ k →
      isCredentialOrCloudConfig ((create_cluster c).2.get ⟨k, hk⟩) = false ∧
      isCASecretApply ((create_cluster c).2.get ⟨k, hk⟩) = false := by
    intro k hk h13
    have hk2 : k - 13 < ((create_cluster c).2.drop 13).length := by
      rw [List.length_drop]; omega
    have heq : (create_cluster c).2.get ⟨k, hk⟩ =
        ((create_cluster c).2.drop 13).get ⟨k - 13, hk2⟩ := by
      simp only [List.get_eq_getElem, List.getElem_drop]
      congr 1
      omega
    have hd : (create_cluster c).2.get ⟨k, hk⟩ ∈ (create_cluster c).2.drop 13 := by
      rw [heq]
      exact List.get_mem _ _ _
    rw [hdrop] at hd
    rcases List.mem_append.1 hd with hm | hs
    · rcases List.mem_flatMap.1 hm with ⟨ng, _, hmem⟩
      have hex := isNG_excludes _ (create_nodegroup_events_are_ng ng _ hmem)
      exact ⟨hex.1, hex.2.1⟩
    · exact epilogue_no_cred_no_ca c _ hs
  have hlow : ∀ (k : Nat) (hk : k < (create_cluster c).2.length), k < 13 →
      isNodeGroupResourceApply ((create_cluster c).2.get ⟨k, hk⟩) = false ∧
      (create_cluster c).2.get ⟨k, hk⟩ ≠ Ev.applyCluster := by
    intro k hk hk13
    have hk2 : k < ((create_cluster c).2.take 13).length := by
      rw [List.length_take]
      omega
    have heq : (create_cluster c).2.get ⟨k, hk⟩ =
        ((create_cluster c).2.take 13).get ⟨k, hk2⟩ := by
      simp only [List.get_eq_getElem, List.getElem_take]
    have hd : (create_cluster c).2.get ⟨k, hk⟩ ∈ (create_cluster c).2.take 13 := by
      rw [heq]
      exact List.get_mem _ _ _
    rw [htake] at hd
    exact prologue_no_ng_no_cluster c _ hd
  constructor
  · intro hcred hng
    have hi13 : i < 13 := by
      by_contra h
      have hf := (hhigh i hi (by omega)).1
      rw [hf] at hcred
      exact absurd hcred (by simp)
    have hj13 : 13 ≤ j := by
      by_contra h
      have hf := (hlow j hj (by omega)).1
      rw [hf] at hng
      exact absurd hng (by simp)
    omega
  · intro hca hcl
    have hi13 : i < 13 := by
      by_contra h
      have hf := (hhigh i hi (by omega)).2
      rw [hf] at hca
      exact absurd hca (by simp)
    have hj13 : 13 ≤ j := by
      by_contra h
      exact (hlow j hj (by omega)).2 hcl
    omega

/-- Witness for C2 at the concrete one-master-two-worker cluster: the
credential issuance (index 7) precedes the first node-group resource apply
(index 13), and the first CA secret apply (index 9) precedes the top-level
cluster apply (index 22). -/
theorem create_cluster_ordering_witness :
    isCredentialOrCloudConfig ((create_cluster clusterA).2.get
      ⟨7, by decide⟩) = true ∧
    isNodeGroupResourceApply ((create_cluster clusterA).2.get
      ⟨13, by decide⟩) = true ∧
    isCASecretApply ((create_cluster clusterA).2.get ⟨9, by decide⟩) = true ∧
    (create_cluster clusterA).2.get ⟨22, by decide⟩ = Ev.applyCluster ∧
    (7 : Nat) < 13 ∧ (9 : Nat) < 22 := by
  refine ⟨by decide, by decide, by decide, by decide, ?_, ?_⟩
  · exact (create_cluster_ordering clusterA 7 13 (by decide) (by decide)).1
      (by decide) (by decide)
  · exact (create_cluster_ordering clusterA 9 22 (by decide) (by decide)).2
      (by decide) (by decide)

/-- The node-group loop never changes the threaded cluster's status (it
only updates `coe_version`). -/
theorem update_ngs_loop_cluster_status (w : World) :
    ∀ (ngs : List NodeGroup) (c : Cluster),
      (update_ngs_loop w c ngs).cluster.status = c.status := by
  intro ngs
  induction ngs with
  | nil => intro c; rfl
  | cons ng rest ih =>
    intro c
    simp only [update_ngs_loop]
    split
    · by_cases hrole : (update_nodegroup_status w ng).1.role = "master" <;>
        simp [hrole, ih]
    · rfl

/-- If the node-group loop ran to completion, every node group in its
result list has status CREATE_COMPLETE or UPDATE_COMPLETE. -/
theorem update_ngs_loop_ok_complete (w : World) :
    ∀ (ngs : List NodeGroup) (c : Cluster),
      (update_ngs_loop w c ngs).ok = true →
      ∀ ng2 ∈ (update_ngs_loop w c ngs).ngs,
        ng2.status = "CREATE_COMPLETE" ∨ ng2.status = "UPDATE_COMPLETE" := by
  intro ngs
  induction ngs with
  | nil =>
    intro c _ ng2 h
    simp [update_ngs_loop] at h
  | cons ng rest ih =>
    intro c hok ng2 hmem
    simp only [update_ngs_loop] at hok hmem
    by_cases hcond : (update_nodegroup_status w ng).1.status = "CREATE_COMPLETE" ∨
        (update_nodegroup_status w ng).1.status = "UPDATE_COMPLETE"
    · rw [if_pos hcond] at hok hmem
      simp only [List.mem_cons] at hmem
      rcases hmem with rfl | hmem
      · exact hcond
      · exact ih _ hok ng2 hmem
    · rw [if_neg hcond] at hok
      simp at hok

/-- The DELETE_IN_PROGRESS block does nothing when the status is not
DELETE_IN_PROGRESS. -/
theorem delete_branch_noop (w : World) (c : Cluster) (evs : List Ev)
    (h : c.status ≠ "DELETE_IN_PROGRESS") :
    delete_in_progress_branch w c evs = ⟨c, evs, false⟩ := by
  unfold delete_in_progress_branch
  rw [if_neg h]

/-- On an in-progress status, `advance_in_progress` produces the matching
complete status and touches nothing else the guard claim needs. -/
theorem advance_in_progress_spec (c2 : Cluster)
    (hst : c2.status = "CREATE_IN_PROGRESS" ∨ c2.status = "UPDATE_IN_PROGRESS") :
    ((advance_in_progress c2).status = "CREATE_COMPLETE" ∨
     (advance_in_progress c2).status = "UPDATE_COMPLETE") ∧
    (advance_in_progress c2).nodegroups = c2.nodegroups := by
  rcases hst with h | h <;> simp [advance_in_progress, h]

/-- After the ready check, `ready_path` either leaves the status unchanged
or advances it, and in the advancing case every node group of the result
is CREATE/UPDATE_COMPLETE. -/
theorem ready_path_dichotomy (w : World) (c1 : Cluster)
    (hst : c1.status = "CREATE_IN_PROGRESS" ∨ c1.status = "UPDATE_IN_PROGRESS") :
    (ready_path w c1).cluster.status = c1.status ∨
    ((ready_path w c1).cluster.status = "CREATE_COMPLETE" ∨
      (ready_path w c1).cluster.status = "UPDATE_COMPLETE") ∧
    (∀ ng ∈ (ready_path w c1).cluster.nodegroups,
      ng.status = "CREATE_COMPLETE" ∨ ng.status = "UPDATE_COMPLETE") := by
  have hloopst := update_ngs_loop_cluster_status w c1.nodegroups c1
  have hcomplete := update_ngs_loop_ok_complete w c1.nodegroups c1
  simp only [ready_path]
  cases hok : (update_ngs_loop w c1 c1.nodegroups).ok
  · rw [if_neg Bool.false_ne_true]
    left
    exact hloopst
  · rw [if_pos rfl]
    right
    have hst2 : ({ (update_ngs_loop w c1 c1.nodegroups).cluster with
        nodegroups := (update_ngs_loop w c1 c1.nodegroups).ngs } :
          Cluster).status = "CREATE_IN_PROGRESS" ∨
        ({ (update_ngs_loop w c1 c1.nodegroups).cluster with
        nodegroups := (update_ngs_loop w c1 c1.nodegroups).ngs } :
          Cluster).status = "UPDATE_IN_PROGRESS" := by
      rw [← hloopst] at hst
      exact hst
    obtain ⟨hadv, hngs⟩ := advance_in_progress_spec _ hst2
    have hne : (advance_in_progress
        { (update_ngs_loop w c1 c1.nodegroups).cluster with
          nodegroups := (update_ngs_loop w c1 c1.nodegroups).ngs }).status ≠
        "DELETE_IN_PROGRESS" := by
      rcases hadv with h | h <;> rw [h] <;> decide
    rw [delete_branch_noop w _ _ hne]
    refine ⟨hadv, ?_⟩
    intro ng hmem
    have hmem2 : ng ∈ (advance_in_progress
        { (update_ngs_loop w c1 c1.nodegroups).cluster with
          nodegroups := (update_ngs_loop w c1 c1.nodegroups).ngs }).nodegroups :=
      hmem
    rw [hngs] at hmem2
    exact hcomplete hok ng hmem2

/-- Claim C8: while the cluster is CREATE/UPDATE_IN_PROGRESS,
`update_cluster_status` advances the status (necessarily to
CREATE_COMPLETE or UPDATE_COMPLETE) only if every node group of the
refreshed cluster has a status of the form `*_COMPLETE`; if any refreshed
node group is not `*_COMPLETE`, the status is left unchanged. -/
theorem update_cluster_status_advance_guard (w : World) (c : Cluster)
    (hst : c.status = "CREATE_IN_PROGRESS" ∨ c.status = "UPDATE_IN_PROGRESS") :
    ((update_cluster_status w c).cluster.status ≠ c.status →
      ((update_cluster_status w c).cluster.status = "CREATE_COMPLETE" ∨
       (update_cluster_status w c).cluster.status = "UPDATE_COMPLETE") ∧
      ∀ ng ∈ (update_cluster_status w c).cluster.nodegroups,
        ∃ v, ng.status = v ++ "_COMPLETE") ∧
    ((∃ ng ∈ (update_cluster_status w c).cluster.nodegroups,
        ∀ v, ng.status ≠ v ++ "_COMPLETE") →
      (update_cluster_status w c).cluster.status = c.status) := by
  unfold update_cluster_status
  rw [if_pos hst]
  by_cases hcp : statusMapGet w.capiConditions "ControlPlaneReady" ≠ some "True"
  · rw [if_pos hcp]
    exact ⟨fun hne => absurd rfl hne, fun _ => rfl⟩
  · rw [if_neg hcp]
    have hst1 : ({ c with api_address := some ("https://" ++
        w.capiEndpointHost ++ ":" ++ toString w.capiEndpointPort) } :
          Cluster).status = "CREATE_IN_PROGRESS" ∨
        ({ c with api_address := some ("https://" ++ w.capiEndpointHost ++
          ":" ++ toString w.capiEndpointPort) } : Cluster).status =
            "UPDATE_IN_PROGRESS" := hst
    have hd := ready_path_dichotomy w _ hst1
    rcases hd with hsame | ⟨hadv, hall⟩
    · exact ⟨fun hne => absurd hsame hne, fun _ => hsame⟩
    · constructor
      · intro _
        refine ⟨hadv, ?_⟩
        intro ng hmem
        rcases hall ng hmem with h | h
        · exact ⟨"CREATE", by rw [h]; decide⟩
        · exact ⟨"UPDATE", by rw [h]; decide⟩
      · rintro ⟨ng, hmem, hbad⟩
        rcases hall ng hmem with h | h
        · exact absurd (show ng.status = "CREATE" ++ "_COMPLETE" by
            rw [h]; decide) (hbad "CREATE")
        · exact absurd (show ng.status = "UPDATE" ++ "_COMPLETE" by
            rw [h]; decide) (hbad "UPDATE")

/-- Witness for C8: with a fully healthy world, the CREATE_IN_PROGRESS
cluster advances, and then every refreshed node group is `*_COMPLETE`. -/
theorem update_cluster_status_advance_guard_witness :
    ((update_cluster_status worldDeleted clusterA).cluster.status =
        "CREATE_COMPLETE" ∨
     (update_cluster_status worldDeleted clusterA).cluster.status =
        "UPDATE_COMPLETE") ∧
    ∀ ng ∈ (update_cluster_status worldDeleted clusterA).cluster.nodegroups,
      ∃ v, ng.status = v ++ "_COMPLETE" :=
  (update_cluster_status_advance_guard worldDeleted clusterA
    (Or.inl rfl)).1 (by decide)

end MagnumClusterApi
